import Mathlib

/-!
Shallow embedding of the spotify-service program (src/src/main.rs).

The program is an HTTP front end over the rspotify client: a shared
snapshot of playback state (`SpotifyState.playback_status`), a
synchronizer (`update_state`), command handlers (`toggle_playback`,
`next_track`, `previous_track`, `restart_track`), a read handler
(`get_current_playback`), and a stateless image helper
(`get_resized_image`).

Modelling conventions:
- All handlers run under one mutex, so each request is embedded as a
  pure function of its inputs: the process auth secret (the Rust
  `AUTH_TOKEN` static), the caller's `auth_token` query parameter, the
  outcome the provider returns for the `current_playback` refresh query,
  the prior shared snapshot, and a `dispatch` stub standing for the
  provider mutation endpoints (`pause_playback`, `resume_playback`,
  `next_track`, `previous_track`, `seek_track`).
- chrono `TimeDelta` values coming from the provider (playback progress,
  track duration) are nonnegative and are modelled as `Nat`
  milliseconds; `num_seconds()` truncates, which for nonnegative values
  is division by 1000 (`numSeconds`).
- Rust `as u32` casts are `% 2 ^ 32`; `u64` positions are `Nat`.
- A Rust panic (`unwrap` on `None`, `expect` on `Err`, `unreachable!`,
  out-of-bounds index) is an explicit `panicked` outcome carrying the
  provider mutation calls issued before the panic (always none here,
  since every panic site precedes the mutation call).
-/

/-- The cached playback snapshot (`PlaybackState` in main.rs):
`is_playing: bool`, `position: u64` (seconds), `device_id: String`. -/
structure PlaybackState where
  is_playing : Bool
  position : Nat
  device_id : String
deriving DecidableEq

/-- The active output device as the program sees it (rspotify `Device`).
The program only ever inspects `id: Option<String>`; the remaining
fields are carried opaquely into the serialized view and are omitted. -/
structure DeviceM where
  id : Option String
deriving DecidableEq

/-- The id of the currently playing item (rspotify `PlayableId`):
either a track id or an episode id. -/
inductive PlayableIdM where
  | trackId (id : String)
  | episodeId (id : String)
deriving DecidableEq

/-- The currently playing item (rspotify `PlayableItem`); the program
only uses `.id()`, which is an `Option<PlayableId>`. -/
structure ItemM where
  id : Option PlayableIdM
deriving DecidableEq

/-- rspotify `RepeatState`: carried through to the view unchanged. -/
inductive RepeatStateM where
  | off
  | trackRep
  | contextRep
deriving DecidableEq

/-- The provider's `CurrentPlaybackContext` restricted to the fields the
program reads: `device`, `item`, `progress: Option<TimeDelta>` (here
`Option Nat`, milliseconds), `is_playing`, `shuffle_state`,
`repeat_state`. -/
structure CurrentPlaybackContext where
  device : DeviceM
  item : Option ItemM
  progress : Option Nat
  is_playing : Bool
  shuffle_state : Bool
  repeat_state : RepeatStateM
deriving DecidableEq

/-- Outcome of the provider query `spotify.current_playback(...)`:
`Ok(Some(ctx))`, `Ok(None)`, or `Err(e)`. -/
inductive ProviderPlaybackResult where
  | okSome (playing : CurrentPlaybackContext)
  | okNone
  | err (e : String)
deriving DecidableEq

/-- chrono `TimeDelta::num_seconds` on a nonnegative duration given in
milliseconds: truncating division, i.e. the floor of the duration in
seconds. -/
def numSeconds (ms : Nat) : Nat := ms / 1000

/-- Result of a run of `update_state`: either the new shared snapshot
(the function itself returns `()` and surfaces no error), or a panic
from one of its `unwrap` calls. -/
inductive UpdateResult where
  | panicked (msg : String)
  | ok (snapshot : Option PlaybackState)
deriving DecidableEq

/-- `update_state` (main.rs lines 100-126): queries the provider and
unconditionally replaces the shared snapshot. `Ok(Some(playing))`
stores `is_playing`, `position = playing.progress.unwrap().num_seconds()
as u64` and `device_id = playing.device.id.unwrap()`; `Ok(None)` and
`Err(_)` both clear the snapshot to `None`. The prior snapshot `snap0`
is overwritten without being read. -/
def update_state (refresh : ProviderPlaybackResult) (snap0 : Option PlaybackState) :
    UpdateResult :=
  match refresh, snap0 with
  | .okSome playing, _ =>
    match playing.progress with
    | none => .panicked "called Option::unwrap on a None value"
    | some p =>
      match playing.device.id with
      | none => .panicked "called Option::unwrap on a None value"
      | some d =>
        .ok (some { is_playing := playing.is_playing, position := numSeconds p,
                    device_id := d })
  | .okNone, _ => .ok none
  | .err _, _ => .ok none

/-- An HTTP response as the handlers build it: status, optional
Content-Type header, body string. -/
structure HttpResponse where
  status : Nat
  contentType : Option String
  body : String
deriving DecidableEq

/-- The Rust return value `Result<Response<Body>, String>` of the
command handlers. -/
inductive HandlerReturn where
  | resp (r : HttpResponse)
  | errStr (e : String)
deriving DecidableEq

/-- The `Response::builder().status(200).header("Content-Type",
"application/json").body(...)` chain every command handler repeats. -/
def jsonOk (body : String) : HttpResponse :=
  { status := 200, contentType := some "application/json", body := body }

/-- A provider mutation call, with the arguments the program passes:
all device arguments are `Some(device_id)` strings, resume carries the
position offset in seconds, seek carries the seconds offset. -/
inductive ProviderCall where
  | pausePlayback (device : Option String)
  | resumePlayback (device : Option String) (positionSecs : Nat)
  | nextTrack (device : Option String)
  | previousTrack (device : Option String)
  | seekTrack (progressSecs : Nat) (device : Option String)
deriving DecidableEq

/-- Outcome of a provider mutation call; the handlers bind it to `_`
and never look at it. -/
inductive DispatchResult where
  | ok
  | err (e : String)
deriving DecidableEq

/-- Everything observable about a completed (non-panicking) command
request: the handler's return value, the shared snapshot afterwards,
and the provider mutation calls issued. -/
structure CommandOutcome where
  result : HandlerReturn
  snapshot : Option PlaybackState
  calls : List ProviderCall
deriving DecidableEq

/-- A command request either panics (carrying the mutation calls issued
before the panic) or completes with a `CommandOutcome`. -/
inductive CommandResult where
  | panicked (msg : String) (calls : List ProviderCall)
  | done (o : CommandOutcome)
deriving DecidableEq

/-- The fixed 400 rejection every command handler returns on an auth
token mismatch. -/
def invalidTokenResponse : HttpResponse :=
  { status := 400, contentType := some "application/json",
    body := "\x7b\"message\": \"invalid token\"\x7d" }

/-- Largest whole-seconds value `s` for which chrono
`TimeDelta::new(s, 0)` is `Some`: `s * 1000` must not exceed
`i64::MAX` milliseconds. -/
def maxTimeDeltaSecs : Nat := 9223372036854775

/-- `toggle_playback` (main.rs lines 195-247). Gate on the auth token;
on match force `update_state`; if the refreshed snapshot is present,
pause when `is_playing` else resume at the snapshot position (built via
`TimeDelta::new(position, 0).unwrap()`, which panics beyond
`maxTimeDeltaSecs`), ignoring the dispatch outcome; the
`playback.is_playing = false` assignments act on
`playback_status.clone()`, a local copy, so the shared snapshot stays
as `update_state` wrote it. An absent snapshot returns
`Err("Could not toggle playback")`. -/
def toggle_playback (secret auth_token : String) (refresh : ProviderPlaybackResult)
    (dispatch : ProviderCall → DispatchResult) (snap0 : Option PlaybackState) :
    CommandResult :=
  if secret ≠ auth_token then
    .done { result := .resp invalidTokenResponse, snapshot := snap0, calls := [] }
  else
    match update_state refresh snap0 with
    | .panicked m => .panicked m []
    | .ok snap1 =>
      match snap1 with
      | some playback =>
        if playback.is_playing then
          let c := ProviderCall.pausePlayback (some playback.device_id)
          let _ := dispatch c
          .done { result := .resp (jsonOk "\x7b\"message\": \"playback paused\"\x7d"),
                  snapshot := snap1, calls := [c] }
        else
          if playback.position ≤ maxTimeDeltaSecs then
            let c := ProviderCall.resumePlayback (some playback.device_id) playback.position
            let _ := dispatch c
            .done { result := .resp (jsonOk "\x7b\"message\": \"playback resumed\"\x7d"),
                    snapshot := snap1, calls := [c] }
          else
            .panicked "called Option::unwrap on a None value" []
      | none => .done { result := .errStr "Could not toggle playback", snapshot := snap1,
                        calls := [] }

/-- `next_track` (main.rs lines 249-279). Gate, forced refresh, then
`playback_status.unwrap().device_id` — a panic when the snapshot is
absent — then a skip-forward dispatch whose outcome is ignored, and a
fixed 200 acknowledgement (whose body in the source is missing its
closing brace, reproduced faithfully). -/
def next_track (secret auth_token : String) (refresh : ProviderPlaybackResult)
    (dispatch : ProviderCall → DispatchResult) (snap0 : Option PlaybackState) :
    CommandResult :=
  if secret ≠ auth_token then
    .done { result := .resp invalidTokenResponse, snapshot := snap0, calls := [] }
  else
    match update_state refresh snap0 with
    | .panicked m => .panicked m []
    | .ok snap1 =>
      match snap1 with
      | none => .panicked "called Option::unwrap on a None value" []
      | some pb =>
        let c := ProviderCall.nextTrack (some pb.device_id)
        let _ := dispatch c
        .done { result := .resp (jsonOk "\x7b\"message\": \"successfully skipped to the next track\""),
                snapshot := snap1, calls := [c] }

/-- `previous_track` (main.rs lines 281-311): same shape as
`next_track` with a skip-backward dispatch. -/
def previous_track (secret auth_token : String) (refresh : ProviderPlaybackResult)
    (dispatch : ProviderCall → DispatchResult) (snap0 : Option PlaybackState) :
    CommandResult :=
  if secret ≠ auth_token then
    .done { result := .resp invalidTokenResponse, snapshot := snap0, calls := [] }
  else
    match update_state refresh snap0 with
    | .panicked m => .panicked m []
    | .ok snap1 =>
      match snap1 with
      | none => .panicked "called Option::unwrap on a None value" []
      | some pb =>
        let c := ProviderCall.previousTrack (some pb.device_id)
        let _ := dispatch c
        .done { result := .resp (jsonOk "\x7b\"message\": \"successfully skipped to the previous track\""),
                snapshot := snap1, calls := [c] }

/-- `restart_track` (main.rs lines 313-343): same shape as
`next_track` with a `seek_track(Duration::seconds(0), device)`
dispatch. -/
def restart_track (secret auth_token : String) (refresh : ProviderPlaybackResult)
    (dispatch : ProviderCall → DispatchResult) (snap0 : Option PlaybackState) :
    CommandResult :=
  if secret ≠ auth_token then
    .done { result := .resp invalidTokenResponse, snapshot := snap0, calls := [] }
  else
    match update_state refresh snap0 with
    | .panicked m => .panicked m []
    | .ok snap1 =>
      match snap1 with
      | none => .panicked "called Option::unwrap on a None value" []
      | some pb =>
        let c := ProviderCall.seekTrack 0 (some pb.device_id)
        let _ := dispatch c
        .done { result := .resp (jsonOk "\x7b\"message\": \"successfully restarted the track\""),
                snapshot := snap1, calls := [c] }

/-- The provider mutation calls a command request issued, panicking
or not. -/
def CommandResult.callsMade : CommandResult → List ProviderCall
  | .panicked _ cs => cs
  | .done o => o.calls

/-- Whether a command request completed by returning the handler's own
`Err(String)` value (an explicit error, as opposed to a panic or a
success response). -/
def CommandResult.isExplicitFailure : CommandResult → Bool
  | .panicked _ _ => false
  | .done o =>
    match o.result with
    | .errStr _ => true
    | .resp _ => false

/-- One entry of an album-art image list (rspotify `Image`); the
program only reads `url`. -/
structure ImageRef where
  url : String
deriving DecidableEq

/-- The album of a full track, restricted to the `images` list the
program indexes into. -/
structure AlbumM where
  images : List ImageRef
deriving DecidableEq

/-- A track artist as returned by the provider: `name` and the
`external_urls` map (modelled as an association list). -/
structure ArtistRef where
  name : String
  external_urls : List (String × String)
deriving DecidableEq

/-- rspotify `FullTrack` restricted to the fields `simplify_track`
reads; `duration` is a chrono `TimeDelta` modelled as nonnegative
milliseconds. -/
structure FullTrack where
  name : String
  artists : List ArtistRef
  album : AlbumM
  external_urls : List (String × String)
  duration : Nat
deriving DecidableEq

/-- `HashMap::get(key).cloned()` on an `external_urls` map. -/
def urlsGet (m : List (String × String)) (k : String) : Option String :=
  match m.find? (fun p => p.1 == k) with
  | some p => some p.2
  | none => none

/-- The simplified `Artist` view struct of main.rs. -/
structure Artist where
  name : String
  url : Option String
deriving DecidableEq

/-- The simplified `Track` view struct of main.rs; `duration: u32` is
whole seconds. -/
structure Track where
  name : String
  artists : List Artist
  image_url : Option String
  url : Option String
  duration : Nat
deriving DecidableEq

/-- Result of `Track::simplify_track`: the view, or the panic from the
out-of-bounds index `full_track.album.images[0]` when the album-art
list is empty. -/
inductive TrackResult where
  | panicked (msg : String)
  | ok (t : Track)
deriving DecidableEq

/-- `Track::simplify_track` (main.rs lines 76-93): simplified name and
artists, `image_url = Some(album.images[0].url)` (panics on an empty
list), `url = external_urls.get("spotify")`, and
`duration = duration.num_seconds() as u32`. -/
def simplify_track (full_track : FullTrack) : TrackResult :=
  match full_track.album.images with
  | [] => .panicked "index out of bounds: the len is 0 but the index is 0"
  | img :: _ =>
    .ok { name := full_track.name,
          artists := full_track.artists.map
            (fun a => { name := a.name, url := urlsGet a.external_urls "spotify" }),
          image_url := some img.url,
          url := urlsGet full_track.external_urls "spotify",
          duration := numSeconds full_track.duration % 2 ^ 32 }

/-- The `CurrentlyPlaying` view struct of main.rs:
`progress_secs: u32` is `progress.num_seconds() as u32`. -/
structure CurrentlyPlaying where
  device : DeviceM
  track : Track
  progress_secs : Nat
  shuffled : Bool
  playing : Bool
  repeat_status : RepeatStateM
deriving DecidableEq

/-- Body of a successful `get_current_playback` response: either the
serialized `CurrentlyPlaying` view, or the empty idle body of the
`Ok(None)` branch (JSON serialization itself is outside the
embedding). -/
inductive PlaybackView where
  | active (v : CurrentlyPlaying)
  | idle
deriving DecidableEq

/-- The `Result<Response<Body>, String>` value of
`get_current_playback`. -/
inductive ReadReturn where
  | resp (v : PlaybackView)
  | errStr (e : String)
deriving DecidableEq

/-- A `get_current_playback` request either panics or completes with a
return value and a resulting shared snapshot. -/
inductive ReadResult where
  | panicked (msg : String)
  | done (result : ReadReturn) (snapshot : Option PlaybackState)
deriving DecidableEq

/-- Outcome of the `spotify.track(track_id, None)` lookup. -/
inductive TrackLookup where
  | ok (t : FullTrack)
  | err (e : String)
deriving DecidableEq

/-- `get_current_playback` (main.rs lines 128-193). On `Ok(Some)`:
`playing.item.unwrap().id().unwrap()` (two panic sites), an
`unreachable!` panic on an episode id, the track lookup whose failure
panics via `.expect(...)`, then the snapshot update (same `unwrap`s as
`update_state`), then the view build (where `simplify_track` may
panic). `Ok(None)` yields the empty idle body and clears the snapshot;
`Err(e)` returns `Err("Error with getting playback, " + e)` and clears
the snapshot. -/
def get_current_playback (refresh : ProviderPlaybackResult)
    (lookup : String → TrackLookup) (snap0 : Option PlaybackState) : ReadResult :=
  match refresh, snap0 with
  | .okSome playing, _ =>
    match playing.item with
    | none => .panicked "called Option::unwrap on a None value"
    | some item =>
      match item.id with
      | none => .panicked "called Option::unwrap on a None value"
      | some (.episodeId _) =>
        .panicked "internal error: entered unreachable code: Does not parse episodes"
      | some (.trackId tid) =>
        match lookup tid with
        | .err _ => .panicked "Could not get information for track"
        | .ok track_info =>
          match playing.progress with
          | none => .panicked "called Option::unwrap on a None value"
          | some p =>
            match playing.device.id with
            | none => .panicked "called Option::unwrap on a None value"
            | some d =>
              match simplify_track track_info with
              | .panicked m => .panicked m
              | .ok tr =>
                .done
                  (.resp (.active
                    { device := playing.device, track := tr,
                      progress_secs := numSeconds p % 2 ^ 32,
                      shuffled := playing.shuffle_state,
                      playing := playing.is_playing,
                      repeat_status := playing.repeat_state }))
                  (some { is_playing := playing.is_playing, position := numSeconds p,
                          device_id := d })
  | .okNone, _ => .done (.resp .idle) none
  | .err e, _ => .done (.errStr ("Error with getting playback, " ++ e)) none

/-- What the fetched image body turns out to contain once read:
`with_guessed_format()` failing (its `.expect` panics), `decode()`
failing (its `.expect` panics), or an image decoding to RGB8 pixels of
the given dimensions. -/
inductive ImageContent where
  | formatGuessErr
  | decodeErr
  | decoded (width : Nat) (height : Nat)
deriving DecidableEq

/-- Outcome of `response.bytes()`: a read error or the content. -/
inductive BytesRead where
  | readErr
  | readOk (content : ImageContent)
deriving DecidableEq

/-- The upstream HTTP response for the image fetch: status code,
optional Content-Type header value, and the body. -/
structure UpstreamImageResponse where
  status : Nat
  content_type : Option String
  bytes : BytesRead
deriving DecidableEq

/-- Outcome of `reqwest::get(url)`. -/
inductive FetchResult where
  | fetchErr
  | fetched (r : UpstreamImageResponse)
deriving DecidableEq

/-- The response of `get_resized_image`: an error response with status
and body, a panic from one of its `.expect` calls, or the raw-pixel
success response (default status, no Content-Type header, body = the
interleaved RGB8 buffer: `byte_len = 3 * width * height`, no encoding
header). -/
inductive ImageHandlerResult where
  | errResp (status : Nat) (body : String)
  | panicked (msg : String)
  | raw (width : Nat) (height : Nat) (byte_len : Nat)
deriving DecidableEq

/-- Rust `f64::round` (round half away from zero) applied to the
nonnegative exact fraction `num / den`: the floor of
`num / den + 1 / 2`, computed as `(2 * num + den) / (2 * den)` in
integer arithmetic. -/
def roundRatNat (num den : Nat) : Nat := (2 * num + den) / (2 * den)

/-- `image::math::utils::resize_dimensions(width, height, nwidth,
nheight, fill = false)`, the dimension computation of
`DynamicImage::resize`: scale by the smaller of the two ratios
`nwidth / width` and `nheight / height` (preserving aspect ratio,
fitting inside the requested bounds), round, clamp below by 1, and
clamp to `u32::MAX` keeping the ratio. The crate computes the ratios
in `f64`; here they are exact fractions (`ratioNum / ratioDen`, with
the ratio comparison cross-multiplied), which agrees with the `f64`
code whenever the latter is exact, and assumes the decoded image has
positive dimensions (a decoded image always does). -/
def resize_dimensions (width height nwidth nheight : Nat) : Nat × Nat :=
  let ratioNum := if nwidth * height ≤ nheight * width then nwidth else nheight
  let ratioDen := if nwidth * height ≤ nheight * width then width else height
  let nw := max (roundRatNat (width * ratioNum) ratioDen) 1
  let nh := max (roundRatNat (height * ratioNum) ratioDen) 1
  if nw > 4294967295 then
    (4294967295, max (roundRatNat (height * 4294967295) width) 1)
  else if nh > 4294967295 then
    (max (roundRatNat (width * 4294967295) height) 1, 4294967295)
  else (nw, nh)

/-- The decode-and-resize tail of `get_resized_image` (main.rs lines
382-405), reached once status and content type passed: bytes-read
failure returns an empty 500; format-guess and decode failures panic
via `.expect`; otherwise the image is resized with
`DynamicImage::resize` (aspect-preserving, `resize_dimensions`) and
returned as the raw RGB8 buffer. -/
def decode_and_resize (b : BytesRead) (req_width req_height : Nat) :
    ImageHandlerResult :=
  match b with
  | .readErr => .errResp 500 ""
  | .readOk .formatGuessErr => .panicked "could not guess format"
  | .readOk .decodeErr => .panicked "could not decode image"
  | .readOk (.decoded w h) =>
    let dims := resize_dimensions w h req_width req_height
    .raw dims.1 dims.2 (3 * dims.1 * dims.2)

/-- `get_resized_image` (main.rs lines 345-406). Fetch failure → 500
with a fixed body; non-200 status → 500 naming the status (reqwest
`StatusCode`'s `Debug` prints the numeric code); a present Content-Type
header equal to neither `image/jpeg` nor `image/jpg` → 500 naming the
offending type (`HeaderValue`'s `Debug` prints it quoted); an absent
Content-Type header skips the check; then `decode_and_resize`. -/
def get_resized_image (fetch : FetchResult) (req_width req_height : Nat) :
    ImageHandlerResult :=
  match fetch with
  | .fetchErr => .errResp 500 "could not get response for image"
  | .fetched r =>
    if r.status ≠ 200 then
      .errResp 500 ("status code to get image is " ++ toString r.status)
    else
      match r.content_type with
      | some ct =>
        if ct ≠ "image/jpeg" ∧ ct ≠ "image/jpg" then
          .errResp 500 ("response was type: \"" ++ ct ++ "\"")
        else
          decode_and_resize r.bytes req_width req_height
      | none => decode_and_resize r.bytes req_width req_height

/-- Whether an `update_state` run panicked. -/
def UpdateResult.isPanicked : UpdateResult → Bool
  | .panicked _ => true
  | .ok _ => false

/-- A concrete provider context for witnesses: a track playing on
device D1, 65350 ms in. -/
def ctxPlayingD1 : CurrentPlaybackContext where
  device := { id := some "D1" }
  item := some { id := some (.trackId "T1") }
  progress := some 65350
  is_playing := true
  shuffle_state := false
  repeat_state := .off

/-- A concrete provider context for witnesses: the same track paused on
device D1. -/
def ctxPausedD1 : CurrentPlaybackContext where
  device := { id := some "D1" }
  item := some { id := some (.trackId "T1") }
  progress := some 65350
  is_playing := false
  shuffle_state := false
  repeat_state := .off

/-- A concrete provider context whose active item carries no progress
value. -/
def ctxNoProgressD1 : CurrentPlaybackContext where
  device := { id := some "D1" }
  item := some { id := some (.trackId "T1") }
  progress := none
  is_playing := true
  shuffle_state := false
  repeat_state := .off

/-- A concrete full track for witnesses: 215900 ms long, one album-art
image. -/
def trackT1 : FullTrack where
  name := "Song One"
  artists := [{ name := "Artist A", external_urls := [("spotify", "https://a.example")] }]
  album := { images := [{ url := "https://img.example/cover.jpg" }] }
  external_urls := [("spotify", "https://t.example")]
  duration := 215900

/-- Claim C2: for every mutating command request whose caller-supplied
auth_token differs from the process AuthSecret, the operation returns
the fixed status-400 response with body `{"message": "invalid token"}`,
makes no provider call, and leaves the shared snapshot unchanged. The
right-hand sides do not mention `refresh` or `dispatch`: the rejected
request performs neither the refresh query nor any mutation call. -/
theorem C2_auth_gate (secret token : String) (refresh : ProviderPlaybackResult)
    (dispatch : ProviderCall → DispatchResult) (snap0 : Option PlaybackState)
    (hne : secret ≠ token) :
    toggle_playback secret token refresh dispatch snap0
      = .done { result := .resp invalidTokenResponse, snapshot := snap0, calls := [] } ∧
    next_track secret token refresh dispatch snap0
      = .done { result := .resp invalidTokenResponse, snapshot := snap0, calls := [] } ∧
    previous_track secret token refresh dispatch snap0
      = .done { result := .resp invalidTokenResponse, snapshot := snap0, calls := [] } ∧
    restart_track secret token refresh dispatch snap0
      = .done { result := .resp invalidTokenResponse, snapshot := snap0, calls := [] } := by
  refine ⟨?_, ?_, ?_, ?_⟩ <;>
    simp [toggle_playback, next_track, previous_track, restart_track, hne]

/-- Witness for C2 at a concrete mismatched token. -/
theorem C2_auth_gate_witness :
    toggle_playback "hunter2" "wrong" .okNone (fun _ => .ok) none
      = .done { result := .resp invalidTokenResponse, snapshot := none, calls := [] } :=
  (C2_auth_gate "hunter2" "wrong" .okNone (fun _ => .ok) none (by decide)).1

/-- Claim C4: `update_state` establishes exactly: active item with its
progress and device id present → snapshot present with that item's
`is_playing`, `position = ` floor of progress in seconds, and its
device id; no active item, or provider error → snapshot absent. The
provider error is not surfaced: the `.err` case returns the plain
`.ok none`, so the snapshot is never present together with an error. -/
theorem C4_update_state_spec (refresh : ProviderPlaybackResult)
    (snap0 : Option PlaybackState) :
    (∀ playing p d, refresh = .okSome playing → playing.progress = some p →
        playing.device.id = some d →
        update_state refresh snap0
          = .ok (some { is_playing := playing.is_playing, position := numSeconds p,
                        device_id := d })) ∧
    (refresh = .okNone → update_state refresh snap0 = .ok none) ∧
    (∀ e, refresh = .err e → update_state refresh snap0 = .ok none) := by
  refine ⟨?_, ?_, ?_⟩
  · rintro playing p d rfl hp hd
    simp [update_state, hp, hd]
  · rintro rfl
    rfl
  · rintro e rfl
    rfl

/-- Witness for C4: a concrete active item (progress 65350 ms, device
D1) yields the snapshot `{is_playing := true, position := 65,
device_id := "D1"}`, and a concrete provider error yields the absent
snapshot. -/
theorem C4_update_state_spec_witness :
    update_state (.okSome ctxPlayingD1) none
      = .ok (some { is_playing := true, position := 65, device_id := "D1" }) ∧
    update_state (.err "network down") none = .ok none :=
  ⟨(C4_update_state_spec (.okSome ctxPlayingD1) none).1 _ 65350 "D1" rfl rfl rfl,
   (C4_update_state_spec (.err "network down") none).2.2 "network down" rfl⟩

/-- Claim C10: the snapshot update of the synchronizer is total exactly
when an active-item response carries both a progress value and a device
id; it panics (crashes the request) rather than producing a snapshot or
an error precisely when either is missing. -/
theorem C10_update_state_totality (refresh : ProviderPlaybackResult)
    (snap0 : Option PlaybackState) :
    UpdateResult.isPanicked (update_state refresh snap0) = true
      ↔ ∃ playing, refresh = .okSome playing ∧
          (playing.progress = none ∨ playing.device.id = none) := by
  cases refresh with
  | okSome playing =>
    cases hp : playing.progress with
    | none => simp [update_state, UpdateResult.isPanicked, hp]
    | some p =>
      cases hd : playing.device.id with
      | none => simp [update_state, UpdateResult.isPanicked, hp, hd]
      | some d => simp [update_state, UpdateResult.isPanicked, hp, hd]
  | okNone => simp [update_state, UpdateResult.isPanicked]
  | err e => simp [update_state, UpdateResult.isPanicked]

/-- Witness for C10: an active-item response with a missing progress
field makes `update_state` panic. -/
theorem C10_update_state_totality_witness :
    UpdateResult.isPanicked (update_state (.okSome ctxNoProgressD1) none) = true :=
  (C10_update_state_totality (.okSome ctxNoProgressD1) none).mpr ⟨_, rfl, .inl rfl⟩

/-- Counterexample to claim C1 as stated: with a matching token and a
provider error during the forced refresh (so the snapshot resolves to
absent), `next_track` does not fail with an explicit error — it panics
on `playback_status.unwrap()`. (No provider mutation call is made, and
the calls list of the panic is empty, so that half of the claim does
hold.) -/
theorem C1_counterexample :
    next_track "s" "s" (.err "provider offline") (fun _ => .ok) none
        = .panicked "called Option::unwrap on a None value" [] ∧
    CommandResult.isExplicitFailure
        (next_track "s" "s" (.err "provider offline") (fun _ => .ok) none) = false := by
  exact ⟨rfl, rfl⟩

/-- Claim C1 as amended: with a matching token, when the forced refresh
leaves the snapshot absent, no operation makes any provider mutation
call (in particular none with an empty or missing device id), but only
`toggle_playback` fails with an explicit error; `next_track`,
`previous_track` and `restart_track` panic on the snapshot `unwrap`
instead (with an empty calls list). -/
theorem C1_absent_snapshot (secret token : String) (refresh : ProviderPlaybackResult)
    (dispatch : ProviderCall → DispatchResult) (snap0 : Option PlaybackState)
    (hgate : secret = token) (habsent : update_state refresh snap0 = .ok none) :
    toggle_playback secret token refresh dispatch snap0
        = .done { result := .errStr "Could not toggle playback", snapshot := none,
                  calls := [] } ∧
    next_track secret token refresh dispatch snap0
        = .panicked "called Option::unwrap on a None value" [] ∧
    previous_track secret token refresh dispatch snap0
        = .panicked "called Option::unwrap on a None value" [] ∧
    restart_track secret token refresh dispatch snap0
        = .panicked "called Option::unwrap on a None value" [] := by
  subst hgate
  refine ⟨?_, ?_, ?_, ?_⟩ <;>
    simp [toggle_playback, next_track, previous_track, restart_track, habsent]

/-- Witness for the amended C1 at a concrete idle refresh. -/
theorem C1_absent_snapshot_witness :
    toggle_playback "s" "s" .okNone (fun _ => .ok) none
        = .done { result := .errStr "Could not toggle playback", snapshot := none,
                  calls := [] } ∧
    restart_track "s" "s" .okNone (fun _ => .ok) none
        = .panicked "called Option::unwrap on a None value" [] :=
  ⟨(C1_absent_snapshot "s" "s" .okNone (fun _ => .ok) none rfl rfl).1,
   (C1_absent_snapshot "s" "s" .okNone (fun _ => .ok) none rfl rfl).2.2.2⟩

/-- Counterexample to claim C3 as stated: with a matching token and a
refresh reporting a playing track on device D1 at 65 s, the shared
snapshot after `toggle_playback` still has `is_playing := true` — not
`false`. The `playback.is_playing = false` assignment in the source
acts on `playback_status.clone()`, a local copy that is then dropped,
so the shared snapshot is never set to `false` by toggle. -/
theorem C3_counterexample :
    toggle_playback "s" "s" (.okSome ctxPlayingD1) (fun _ => .ok) none
      = .done { result := .resp (jsonOk "\x7b\"message\": \"playback paused\"\x7d"),
                snapshot := some { is_playing := true, position := 65, device_id := "D1" },
                calls := [.pausePlayback (some "D1")] } := by
  rfl

/-- Claim C3 as amended: after toggle passes the gate and finds a
present snapshot, the shared snapshot is left exactly as the forced
refresh wrote it — in particular its `is_playing` flag is unchanged in
both branches; the always-false assignment only touches a local clone
that is discarded. -/
theorem C3_snapshot_unchanged (secret token : String) (refresh : ProviderPlaybackResult)
    (dispatch : ProviderCall → DispatchResult) (snap0 : Option PlaybackState)
    (pb : PlaybackState) (hgate : secret = token)
    (hsnap : update_state refresh snap0 = .ok (some pb))
    (hpos : pb.position ≤ maxTimeDeltaSecs) :
    ∃ o : CommandOutcome,
      toggle_playback secret token refresh dispatch snap0 = .done o ∧
        o.snapshot = some pb := by
  subst hgate
  cases hb : pb.is_playing with
  | true =>
    refine ⟨{ result := .resp (jsonOk "\x7b\"message\": \"playback paused\"\x7d"),
              snapshot := some pb, calls := [.pausePlayback (some pb.device_id)] },
            ?_, rfl⟩
    simp [toggle_playback, hsnap, hb]
  | false =>
    refine ⟨{ result := .resp (jsonOk "\x7b\"message\": \"playback resumed\"\x7d"),
              snapshot := some pb,
              calls := [.resumePlayback (some pb.device_id) pb.position] },
            ?_, rfl⟩
    simp [toggle_playback, hsnap, hb, hpos]

/-- Witness for the amended C3: resume branch at a concrete paused
context; the refreshed snapshot (with `is_playing := false` as the
provider reported) survives toggle unchanged. -/
theorem C3_snapshot_unchanged_witness :
    ∃ o : CommandOutcome,
      toggle_playback "s" "s" (.okSome ctxPausedD1) (fun _ => .ok) none = .done o ∧
        o.snapshot = some { is_playing := false, position := 65, device_id := "D1" } :=
  C3_snapshot_unchanged "s" "s" (.okSome ctxPausedD1) (fun _ => .ok) none
    { is_playing := false, position := 65, device_id := "D1" } rfl rfl (by decide)

/-- Claim C5: every command operation that reaches the dispatch step
returns its fixed success acknowledgement. `dispatch` is universally
quantified and absent from every right-hand side, so the response (and
everything else observable) is the same whether the provider mutation
call succeeds or fails: the dispatch failure is swallowed. -/
theorem C5_dispatch_failure_swallowed (secret token : String)
    (refresh : ProviderPlaybackResult) (dispatch : ProviderCall → DispatchResult)
    (snap0 : Option PlaybackState) (pb : PlaybackState) (hgate : secret = token)
    (hsnap : update_state refresh snap0 = .ok (some pb))
    (hpos : pb.position ≤ maxTimeDeltaSecs) :
    toggle_playback secret token refresh dispatch snap0
      = .done { result := .resp (jsonOk (if pb.is_playing then
                            "\x7b\"message\": \"playback paused\"\x7d"
                          else
                            "\x7b\"message\": \"playback resumed\"\x7d")),
                snapshot := some pb,
                calls := [if pb.is_playing then
                            ProviderCall.pausePlayback (some pb.device_id)
                          else
                            ProviderCall.resumePlayback (some pb.device_id) pb.position] } ∧
    next_track secret token refresh dispatch snap0
      = .done { result := .resp (jsonOk "\x7b\"message\": \"successfully skipped to the next track\""),
                snapshot := some pb, calls := [.nextTrack (some pb.device_id)] } ∧
    previous_track secret token refresh dispatch snap0
      = .done { result := .resp (jsonOk "\x7b\"message\": \"successfully skipped to the previous track\""),
                snapshot := some pb, calls := [.previousTrack (some pb.device_id)] } ∧
    restart_track secret token refresh dispatch snap0
      = .done { result := .resp (jsonOk "\x7b\"message\": \"successfully restarted the track\""),
                snapshot := some pb, calls := [.seekTrack 0 (some pb.device_id)] } := by
  subst hgate
  refine ⟨?_, ?_, ?_, ?_⟩
  · cases hb : pb.is_playing <;> simp [toggle_playback, hsnap, hb, hpos]
  · simp [next_track, hsnap]
  · simp [previous_track, hsnap]
  · simp [restart_track, hsnap]

/-- Witness for C5: the next-track acknowledgement at a concrete
playing context, with a dispatch stub that always fails — the failure
is not surfaced. -/
theorem C5_dispatch_failure_swallowed_witness :
    next_track "s" "s" (.okSome ctxPlayingD1) (fun _ => .err "provider rejected") none
      = .done { result := .resp (jsonOk "\x7b\"message\": \"successfully skipped to the next track\""),
                snapshot := some { is_playing := true, position := 65, device_id := "D1" },
                calls := [.nextTrack (some "D1")] } :=
  (C5_dispatch_failure_swallowed "s" "s" (.okSome ctxPlayingD1)
    (fun _ => .err "provider rejected") none
    { is_playing := true, position := 65, device_id := "D1" } rfl rfl (by decide)).2.1

/-- Claim C6: for a present snapshot, toggle with `is_playing = true`
issues exactly one pause call to the snapshot's device id and no other
call; with `is_playing = false` it issues exactly one resume call to
that device id at the snapshot's position offset and no other call
(the full provider-mutation call list is `[pause ...]` respectively
`[resume ...]`). -/
theorem C6_toggle_calls (secret token : String) (refresh : ProviderPlaybackResult)
    (dispatch : ProviderCall → DispatchResult) (snap0 : Option PlaybackState)
    (pb : PlaybackState) (hgate : secret = token)
    (hsnap : update_state refresh snap0 = .ok (some pb))
    (hpos : pb.position ≤ maxTimeDeltaSecs) :
    (pb.is_playing = true →
      CommandResult.callsMade (toggle_playback secret token refresh dispatch snap0)
        = [ProviderCall.pausePlayback (some pb.device_id)]) ∧
    (pb.is_playing = false →
      CommandResult.callsMade (toggle_playback secret token refresh dispatch snap0)
        = [ProviderCall.resumePlayback (some pb.device_id) pb.position]) := by
  subst hgate
  constructor
  · intro hb
    simp [toggle_playback, CommandResult.callsMade, hsnap, hb]
  · intro hb
    simp [toggle_playback, CommandResult.callsMade, hsnap, hb, hpos]

/-- Witness for C6, the spec's own scenario: a fresh snapshot playing
on device D1 makes toggle issue exactly one pause call to D1 and no
resume call. -/
theorem C6_toggle_calls_witness :
    CommandResult.callsMade
        (toggle_playback "s" "s" (.okSome ctxPlayingD1) (fun _ => .ok) none)
      = [ProviderCall.pausePlayback (some "D1")] :=
  (C6_toggle_calls "s" "s" (.okSome ctxPlayingD1) (fun _ => .ok) none
    { is_playing := true, position := 65, device_id := "D1" } rfl rfl (by decide)).1 rfl

/-- Claim C7: for every provider response reporting an active track
(item present with a track id, lookup succeeding, progress and device
id present, album-art list nonempty, and the track length in whole
seconds below the `u32` range), the view returned by
`get_current_playback` has `duration` equal to the floor of the track
length in seconds and `image_url` equal to the URL of the first
album-art entry. -/
theorem C7_view_duration_image (playing : CurrentPlaybackContext) (item : ItemM)
    (tid : String) (lookup : String → TrackLookup) (ft : FullTrack)
    (snap0 : Option PlaybackState) (img : ImageRef) (rest : List ImageRef)
    (p : Nat) (d : String)
    (hitem : playing.item = some item) (hid : item.id = some (.trackId tid))
    (hlookup : lookup tid = .ok ft) (hp : playing.progress = some p)
    (hd : playing.device.id = some d) (himgs : ft.album.images = img :: rest)
    (hdur : numSeconds ft.duration < 2 ^ 32) :
    ∃ v : CurrentlyPlaying,
      get_current_playback (.okSome playing) lookup snap0
        = .done (.resp (.active v))
            (some { is_playing := playing.is_playing, position := numSeconds p,
                    device_id := d }) ∧
      v.track.duration = numSeconds ft.duration ∧
      v.track.image_url = some img.url := by
  refine ⟨{ device := playing.device,
            track := { name := ft.name,
                       artists := ft.artists.map (fun a =>
                         { name := a.name, url := urlsGet a.external_urls "spotify" }),
                       image_url := some img.url,
                       url := urlsGet ft.external_urls "spotify",
                       duration := numSeconds ft.duration % 2 ^ 32 },
            progress_secs := numSeconds p % 2 ^ 32,
            shuffled := playing.shuffle_state,
            playing := playing.is_playing,
            repeat_status := playing.repeat_state }, ?_, ?_, rfl⟩
  · simp [get_current_playback, hitem, hid, hlookup, hp, hd, simplify_track, himgs]
  · exact Nat.mod_eq_of_lt hdur

/-- Witness for C7 at the concrete playing context and track: duration
215900 ms gives a view duration of 215 s, and the view's image URL is
the first (only) album-art URL. -/
theorem C7_view_duration_image_witness :
    ∃ v : CurrentlyPlaying,
      get_current_playback (.okSome ctxPlayingD1) (fun _ => .ok trackT1) none
        = .done (.resp (.active v))
            (some { is_playing := true, position := 65, device_id := "D1" }) ∧
      v.track.duration = 215 ∧
      v.track.image_url = some "https://img.example/cover.jpg" :=
  C7_view_duration_image ctxPlayingD1 { id := some (.trackId "T1") } "T1"
    (fun _ => .ok trackT1) trackT1 none { url := "https://img.example/cover.jpg" } []
    65350 "D1" rfl rfl rfl rfl rfl rfl (by decide)

/-- Counterexample to claim C8 as stated: a successfully fetched and
decoded 100 x 50 JPEG resized with requested width 50 and height 50
yields raw pixels of dimensions 50 x 25, not the requested 50 x 50:
`DynamicImage::resize` preserves the aspect ratio, fitting the image
inside the requested bounds. -/
theorem C8_counterexample :
    get_resized_image (.fetched { status := 200, content_type := some "image/jpeg",
                                  bytes := .readOk (.decoded 100 50) }) 50 50
      = .raw 50 25 3750 ∧ ((50, 25) : Nat × Nat) ≠ (50, 50) := by
  exact ⟨rfl, by decide⟩

/-- Claim C8 as amended: for every successfully fetched and decoded
JPEG, the operation returns raw interleaved RGB bytes with no encoding
header whose dimensions are `resize_dimensions` of the decoded and the
requested dimensions — the largest aspect-ratio-preserving size fitting
within the requested bounds (equal to the requested dimensions only
when the aspect ratios already match). -/
theorem C8_resize_fits (w h rw rh : Nat) :
    get_resized_image (.fetched { status := 200, content_type := some "image/jpeg",
                                  bytes := .readOk (.decoded w h) }) rw rh
      = .raw (resize_dimensions w h rw rh).1 (resize_dimensions w h rw rh).2
          (3 * (resize_dimensions w h rw rh).1 * (resize_dimensions w h rw rh).2) := by
  simp [get_resized_image, decode_and_resize]

/-- Claim C9: an upstream 200 response carrying a Content-Type that is
neither `image/jpeg` nor `image/jpg` makes the operation fail with a
server-error status and a message naming the offending content type.
The response `r` (hence its body) is universally quantified and absent
from the right-hand side: the failure happens before any decode of the
body is attempted. -/
theorem C9_content_type_rejected (r : UpstreamImageResponse) (ct : String)
    (rw rh : Nat) (hstatus : r.status = 200) (hct : r.content_type = some ct)
    (h1 : ct ≠ "image/jpeg") (h2 : ct ≠ "image/jpg") :
    get_resized_image (.fetched r) rw rh
      = .errResp 500 ("response was type: \"" ++ ct ++ "\"") := by
  simp [get_resized_image, hstatus, hct, h1, h2]

/-- Witness for C9: a 200 response with Content-Type `image/png` whose
body would not even decode is rejected with the message naming
`image/png`, without the decode being attempted. -/
theorem C9_content_type_rejected_witness :
    get_resized_image (.fetched { status := 200, content_type := some "image/png",
                                  bytes := .readOk .decodeErr }) 64 64
      = .errResp 500 ("response was type: \"" ++ "image/png" ++ "\"") :=
  C9_content_type_rejected { status := 200, content_type := some "image/png",
                             bytes := .readOk .decodeErr } "image/png" 64 64
    rfl rfl (by decide) (by decide)
